import Mathlib

/-!
# SQLite DB access layer (`src/db/sqlite.cpp`)

A shallow embedding of `SqliteDbAccess` and `SqliteDbTable`.

* `std::string` values (keys, payloads, paths, SQL text) are Lean `String`s;
  `c_str` is the C string a `std::string` converts to, which ends at its
  first NUL byte.
* A pointer that may be `NULL` is an `Option`; the `sqlite3_stmt*` values are
  `Option Nat`, the number naming a live statement of the connection.
* An output parameter `string* data` that is assigned only when the method
  returns `true` is the `Option String` component of the result: `some d` is
  "returned `true` after `data->assign(d)`", `none` is "returned `false`".
* The SQLite C API is outside the repository.  It is represented by a
  deterministic model of one connection (`sqlite3`): four typed tables, the
  snapshot of an open transaction and the table of live prepared statements.
  A table with an implicit rowid is a list of slots, slot `k` holding the row
  with rowid `k + 1` if there is one; a scan walks the slots of the table as
  it is at each step, so it sees the writes made since it started.
  The methods of `SqliteDbTable` are then transcribed call by call.
-/

namespace mega

/-! ## Result codes of the engine -/

abbrev SQLITE_OK : Nat := 0
abbrev SQLITE_ERROR : Nat := 1
abbrev SQLITE_BUSY : Nat := 5
abbrev SQLITE_CANTOPEN : Nat := 14
abbrev SQLITE_CONSTRAINT : Nat := 19
abbrev SQLITE_MISUSE : Nat := 21
abbrev SQLITE_RANGE : Nat := 25
abbrev SQLITE_ROW : Nat := 100
abbrev SQLITE_DONE : Nat := 101

/-! ## Stored data -/

/-- A value bound to a statement parameter: SQL NULL, an integer or a blob. -/
inductive Value where
  | null
  | integer (i : Int)
  | blob (b : String)
  deriving DecidableEq, Repr

/-- Row of `init (id INTEGER PRIMARY KEY NOT NULL, content BLOB NOT NULL)`. -/
structure InitRow where
  id : Int
  content : String
  deriving DecidableEq, Repr

/-- Row of `nodes (nodehandle BLOB PRIMARY KEY NOT NULL, parenthandle BLOB NOT NULL,
fingerprint BLOB, node BLOB NOT NULL)`; `fingerprint = none` is SQL NULL. -/
structure NodeRow where
  nodehandle : String
  parenthandle : String
  fingerprint : Option String
  node : String
  deriving DecidableEq, Repr

/-- Row of `users (email BLOB PRIMARY KEY NOT NULL, user BLOB NOT NULL)`. -/
structure UserRow where
  email : String
  user : String
  deriving DecidableEq, Repr

/-- Row of `pcrs (id BLOB PRIMARY KEY NOT NULL, pcr BLOB NOT NULL)`. -/
structure PcrRow where
  id : String
  pcr : String
  deriving DecidableEq, Repr

/-- The four tables that `SqliteDbAccess::open` creates.  `init` is keyed by its
integer primary key.  The other three have an implicit rowid: slot `k` of the
list holds the row with rowid `k + 1`, or `none` when no row has that rowid. -/
structure Tables where
  init : List InitRow
  nodeSlots : List (Option NodeRow)
  userSlots : List (Option UserRow)
  pcrSlots : List (Option PcrRow)
  deriving DecidableEq, Repr

/-- The rows held by a list of slots, in rowid order. -/
def liveRows {α : Type} (slots : List (Option α)) : List α :=
  slots.filterMap id

/-- Slots up to the largest rowid in use: the empty slots at the end are dropped. -/
def trimSlots {α : Type} : List (Option α) → List (Option α)
  | [] => []
  | some a :: l => some a :: trimSlots l
  | none :: l => if (trimSlots l).isEmpty then [] else none :: trimSlots l

/-- Deletion of the rows that satisfy `p`: their slots become empty. -/
def clearSlots {α : Type} (p : α → Bool) (slots : List (Option α)) : List (Option α) :=
  slots.map (fun s =>
    match s with
    | some r => if p r then none else some r
    | none => none)

/-- The statement `INSERT OR REPLACE`: the new row takes the rowid after the largest one in
use, the rows with the same key (`p`) are deleted, and the new row is stored. -/
def replaceRow {α : Type} (p : α → Bool) (row : α) (slots : List (Option α)) :
    List (Option α) :=
  clearSlots p (trimSlots slots) ++ [some row]

/-- The slots as a scan sees them: the result column of the rows that pass the
`WHERE` test, an empty slot for the others. -/
def selectSlots {α : Type} (p : α → Bool) (col : α → String) (slots : List (Option α)) :
    List (Option String) :=
  slots.map (fun s =>
    match s with
    | some r => if p r then some (col r) else none
    | none => none)

/-- Advance of a scan: the first non-empty slot of `slots`, whose first slot
has rowid `k + 1`, together with its rowid. -/
def seek : List (Option String) → Nat → Option (String × Nat)
  | [], _ => none
  | none :: l, k => seek l (k + 1)
  | some r :: _, k => some (r, k + 1)

/-- A database with the four tables and no rows. -/
def Tables.empty : Tables := ⟨[], [], [], []⟩

/-! ## Statements -/

/-- The SQL texts that occur in `sqlite.cpp`, after compilation. -/
inductive Sql where
  | selectInit
  | selectNodeByHandle
  | selectNodeByFingerprint
  | selectUsers
  | selectChildren
  | selectPcrs
  | insertInit
  | insertNode
  | insertUser
  | insertPcr
  | deleteNode
  | deletePcr
  | deleteFrom (table : String)
  | createTable (table : String)
  | pragmaWal
  | begin
  | commit
  | rollback
  deriving DecidableEq, Repr

/-- Compilation of an SQL text; `none` for a text the file never uses. -/
def compile (zSql : String) : Option Sql :=
  if zSql = "SELECT content FROM init WHERE id = ?" then some .selectInit
  else if zSql = "SELECT node FROM nodes WHERE nodehandle = ?" then some .selectNodeByHandle
  else if zSql = "SELECT node FROM nodes WHERE fingerprint = ?" then some .selectNodeByFingerprint
  else if zSql = "SELECT user FROM users" then some .selectUsers
  else if zSql = "SELECT node FROM nodes WHERE parenthandle = ?" then some .selectChildren
  else if zSql = "SELECT pcr FROM pcrs" then some .selectPcrs
  else if zSql = "INSERT OR REPLACE INTO init (id, content) VALUES (?, ?)" then some .insertInit
  else if zSql = "INSERT OR REPLACE INTO nodes (nodehandle, parenthandle, fingerprint, node) VALUES (?, ?, ?, ?)" then some .insertNode
  else if zSql = "INSERT OR REPLACE INTO users (email, user) VALUES (?, ?)" then some .insertUser
  else if zSql = "INSERT OR REPLACE INTO pcrs (id, pcr) VALUES (?, ?)" then some .insertPcr
  else if zSql = "DELETE FROM nodes WHERE nodehandle = ?" then some .deleteNode
  else if zSql = "DELETE FROM pcrs WHERE id = ?" then some .deletePcr
  else if zSql = "DELETE FROM scsn" then some (.deleteFrom "scsn")
  else if zSql = "DELETE FROM nodes" then some (.deleteFrom "nodes")
  else if zSql = "DELETE FROM users" then some (.deleteFrom "users")
  else if zSql = "DELETE FROM pcrs" then some (.deleteFrom "pcrs")
  else if zSql = "CREATE TABLE IF NOT EXISTS init (id INTEGER PRIMARY KEY NOT NULL, content BLOB NOT NULL)" then some (.createTable "init")
  else if zSql = "CREATE TABLE IF NOT EXISTS nodes (nodehandle BLOB PRIMARY KEY NOT NULL, parenthandle BLOB NOT NULL, fingerprint BLOB, node BLOB NOT NULL)" then some (.createTable "nodes")
  else if zSql = "CREATE TABLE IF NOT EXISTS users (email BLOB PRIMARY KEY NOT NULL, user BLOB NOT NULL)" then some (.createTable "users")
  else if zSql = "CREATE TABLE IF NOT EXISTS pcrs (id BLOB PRIMARY KEY NOT NULL, pcr BLOB NOT NULL)" then some (.createTable "pcrs")
  else if zSql = "PRAGMA journal_mode=WAL;" then some .pragmaWal
  else if zSql = "BEGIN" then some .begin
  else if zSql = "COMMIT" then some .commit
  else if zSql = "ROLLBACK" then some .rollback
  else none

/-- The tables of the schema, by name. -/
def tableNames : List String := ["init", "nodes", "users", "pcrs"]

/-- Name resolution at compile time: `DELETE FROM t` needs an existing table `t`. -/
def Sql.resolves : Sql → Bool
  | .deleteFrom t => decide (t ∈ tableNames)
  | .createTable t => decide (t ∈ tableNames)
  | _ => true

/-- Number of `?` parameters. -/
def Sql.nparams : Sql → Nat
  | .selectInit => 1
  | .selectNodeByHandle => 1
  | .selectNodeByFingerprint => 1
  | .selectChildren => 1
  | .insertInit => 2
  | .insertNode => 4
  | .insertUser => 2
  | .insertPcr => 2
  | .deleteNode => 1
  | .deletePcr => 1
  | _ => 0

/-- Whether the statement is a query producing rows. -/
def Sql.isSelect : Sql → Bool
  | .selectInit => true
  | .selectNodeByHandle => true
  | .selectNodeByFingerprint => true
  | .selectUsers => true
  | .selectChildren => true
  | .selectPcrs => true
  | _ => false

/-- A prepared statement: its program, its parameter bindings (all NULL after
`sqlite3_prepare`), the rowid its scan has reached (`none`: not started, or
reset), and the result column of the row it is positioned on. -/
structure Stmt where
  sql : Sql
  binds : List Value
  pos : Option Nat
  current : Option String
  deriving DecidableEq, Repr

/-- One database connection (`sqlite3`). -/
structure sqlite3 where
  filename : String
  tabs : Tables
  saved : Option Tables
  stmts : List (Nat × Stmt)
  closed : Bool
  deriving DecidableEq, Repr

/-- The slots a query scans, each reduced to the result column of a row that
passes the `WHERE` test.  A comparison with a NULL fingerprint is never true. -/
def scanSlots (t : Tables) : Sql → List Value → List (Option String)
  | .selectInit, [.integer i] =>
      (t.init.filter (fun r => r.id = i)).map (fun r => some r.content)
  | .selectNodeByHandle, [.blob h] =>
      selectSlots (fun r => r.nodehandle = h) (fun r => r.node) t.nodeSlots
  | .selectNodeByFingerprint, [.blob fp] =>
      selectSlots (fun r => r.fingerprint = some fp) (fun r => r.node) t.nodeSlots
  | .selectUsers, _ => selectSlots (fun _ => true) (fun r => r.user) t.userSlots
  | .selectChildren, [.blob ph] =>
      selectSlots (fun r => r.parenthandle = ph) (fun r => r.node) t.nodeSlots
  | .selectPcrs, _ => selectSlots (fun _ => true) (fun r => r.pcr) t.pcrSlots
  | _, _ => []

/-- Effect of a data-changing statement on the tables; `none` when a NOT NULL
or type constraint rejects the bound values. -/
def execWrite (t : Tables) : Sql → List Value → Option Tables
  | .insertInit, [.integer i, .blob c] =>
      some { t with init := t.init.filter (fun r => r.id ≠ i) ++ [⟨i, c⟩] }
  | .insertNode, [.blob h, .blob ph, .null, .blob n] =>
      some { t with nodeSlots := replaceRow (fun r => r.nodehandle = h) ⟨h, ph, none, n⟩ t.nodeSlots }
  | .insertNode, [.blob h, .blob ph, .blob fp, .blob n] =>
      some { t with nodeSlots := replaceRow (fun r => r.nodehandle = h) ⟨h, ph, some fp, n⟩ t.nodeSlots }
  | .insertUser, [.blob e, .blob u] =>
      some { t with userSlots := replaceRow (fun r => r.email = e) ⟨e, u⟩ t.userSlots }
  | .insertPcr, [.blob i, .blob p] =>
      some { t with pcrSlots := replaceRow (fun r => r.id = i) ⟨i, p⟩ t.pcrSlots }
  | .deleteNode, [.blob h] =>
      some { t with nodeSlots := clearSlots (fun r => r.nodehandle = h) t.nodeSlots }
  | .deleteNode, [_] => some t
  | .deletePcr, [.blob i] =>
      some { t with pcrSlots := clearSlots (fun r => r.id = i) t.pcrSlots }
  | .deletePcr, [_] => some t
  | .deleteFrom "init", _ => some { t with init := [] }
  | .deleteFrom "nodes", _ => some { t with nodeSlots := [] }
  | .deleteFrom "users", _ => some { t with userSlots := [] }
  | .deleteFrom "pcrs", _ => some { t with pcrSlots := [] }
  | .createTable _, _ => some t
  | .pragmaWal, _ => some t
  | _, _ => none

/-- Execution of a statement that returns no rows: transaction control, or a
data change.  Result code and connection afterwards. -/
def run (db : sqlite3) (q : Sql) (binds : List Value) : Nat × sqlite3 :=
  match q with
  | .begin =>
      match db.saved with
      | some _ => (SQLITE_ERROR, db)
      | none => (SQLITE_OK, { db with saved := some db.tabs })
  | .commit =>
      match db.saved with
      | some _ => (SQLITE_OK, { db with saved := none })
      | none => (SQLITE_ERROR, db)
  | .rollback =>
      match db.saved with
      | some old => (SQLITE_OK, { db with tabs := old, saved := none })
      | none => (SQLITE_ERROR, db)
  | q =>
      match execWrite db.tabs q binds with
      | some t => (SQLITE_OK, { db with tabs := t })
      | none => (SQLITE_CONSTRAINT, db)

/-! ## The engine calls used by the file -/

/-- A statement number not in use. -/
def freshId (stmts : List (Nat × Stmt)) : Nat :=
  stmts.foldr (fun p m => max (p.1 + 1) m) 1

/-- The live statement a pointer refers to. -/
def findStmt (db : sqlite3) (id : Nat) : Option Stmt :=
  db.stmts.lookup id

/-- Replace the state of statement `id`. -/
def setStmt (db : sqlite3) (id : Nat) (st : Stmt) : sqlite3 :=
  { db with stmts := db.stmts.map (fun p => if p.1 = id then (p.1, st) else p) }

/-- The C string of a `std::string` (`c_str()`): its bytes before the first NUL. -/
def c_str (s : String) : String :=
  ⟨s.data.takeWhile (fun c => c ≠ Char.ofNat 0)⟩

/-- Whether a string holds no NUL byte. -/
def NulFree (s : String) : Bool :=
  s.data.all (fun c => c ≠ Char.ofNat 0)

/-- API `sqlite3_open`: a connection on `filename` showing the stored tables. -/
def sqlite3_open (filename : String) (stored : Option Tables) : Nat × Option sqlite3 :=
  match stored with
  | none => (SQLITE_CANTOPEN, none)
  | some t => (SQLITE_OK, some ⟨filename, t, none, [], false⟩)

/-- API `sqlite3_prepare`: on success a new live statement and `SQLITE_OK`; on
error the statement pointer is set to NULL. -/
def sqlite3_prepare (db : sqlite3) (zSql : String) : Nat × Option Nat × sqlite3 :=
  match compile zSql with
  | none => (SQLITE_ERROR, none, db)
  | some q =>
      if q.resolves then
        (SQLITE_OK, some (freshId db.stmts),
          { db with stmts := (freshId db.stmts,
              ⟨q, List.replicate q.nparams Value.null, none, none⟩) :: db.stmts })
      else (SQLITE_ERROR, none, db)

/-- Common part of `sqlite3_bind_int` and `sqlite3_bind_blob`. -/
def sqlite3_bind (db : sqlite3) (stmt : Option Nat) (idx : Nat) (v : Value) : Nat × sqlite3 :=
  match stmt with
  | none => (SQLITE_MISUSE, db)
  | some id =>
      match findStmt db id with
      | none => (SQLITE_MISUSE, db)
      | some st =>
          if st.pos.isSome then (SQLITE_MISUSE, db)
          else if idx = 0 ∨ st.binds.length < idx then (SQLITE_RANGE, db)
          else (SQLITE_OK, setStmt db id { st with binds := st.binds.set (idx - 1) v })

/-- API `sqlite3_bind_int`. -/
def sqlite3_bind_int (db : sqlite3) (stmt : Option Nat) (idx : Nat) (i : Int) : Nat × sqlite3 :=
  sqlite3_bind db stmt idx (.integer i)

/-- API `sqlite3_bind_blob` with a non-null data pointer and its length. -/
def sqlite3_bind_blob (db : sqlite3) (stmt : Option Nat) (idx : Nat) (data : String) :
    Nat × sqlite3 :=
  sqlite3_bind db stmt idx (.blob data)

/-- API `sqlite3_step`.  A query moves to the next row of the table as it is
now, past the rowid it has reached, and returns `SQLITE_ROW`; with no such
row it returns `SQLITE_DONE` and is reset.  Any other statement runs to
completion. -/
def sqlite3_step (db : sqlite3) (stmt : Option Nat) : Nat × sqlite3 :=
  match stmt with
  | none => (SQLITE_MISUSE, db)
  | some id =>
      match findStmt db id with
      | none => (SQLITE_MISUSE, db)
      | some st =>
          if st.sql.isSelect then
            match seek ((scanSlots db.tabs st.sql st.binds).drop (st.pos.getD 0))
                (st.pos.getD 0) with
            | some (r, k) =>
                (SQLITE_ROW, setStmt db id { st with pos := some k, current := some r })
            | none => (SQLITE_DONE, setStmt db id { st with pos := none, current := none })
          else
            if (run db st.sql st.binds).1 = SQLITE_OK then
              (SQLITE_DONE, (run db st.sql st.binds).2)
            else ((run db st.sql st.binds).1, (run db st.sql st.binds).2)

/-- API `sqlite3_column_blob` / `sqlite3_column_bytes` for column 0 of the current row. -/
def sqlite3_column_blob (db : sqlite3) (stmt : Option Nat) : String :=
  match stmt with
  | none => ""
  | some id =>
      match findStmt db id with
      | none => ""
      | some st => st.current.getD ""

/-- API `sqlite3_finalize`: the statement stops being live. -/
def sqlite3_finalize (db : sqlite3) (stmt : Option Nat) : sqlite3 :=
  match stmt with
  | none => db
  | some id => { db with stmts := db.stmts.filter (fun p => p.1 ≠ id) }

/-- API `sqlite3_reset`: back to the state before the first step; the
statement stays live and keeps its bindings. -/
def sqlite3_reset (db : sqlite3) (stmt : Option Nat) : sqlite3 :=
  match stmt with
  | none => db
  | some id =>
      match findStmt db id with
      | none => db
      | some st => setStmt db id { st with pos := none, current := none }

/-- API `sqlite3_exec` without callback: compile and run one statement. -/
def sqlite3_exec (db : sqlite3) (zSql : String) : Nat × sqlite3 :=
  match compile zSql with
  | none => (SQLITE_ERROR, db)
  | some q => if q.resolves then run db q [] else (SQLITE_ERROR, db)

/-- API `sqlite3_close`: refused with `SQLITE_BUSY` while statements are live;
otherwise an open transaction is rolled back and the connection closes. -/
def sqlite3_close (db : sqlite3) : Nat × sqlite3 :=
  if db.stmts.isEmpty then
    (SQLITE_OK, { db with tabs := db.saved.getD db.tabs, saved := none, closed := true })
  else (SQLITE_BUSY, db)

/-! ## Filesystem collaborator -/

/-- Modelled from the spec: the path-resolution/deletion collaborator
(`FileSystemAccess`, declared outside `sqlite.cpp`), "invoked only inside
`remove()`".  It is represented by the list of local paths it was asked to
delete. -/
structure FileSystemAccess where
  unlinked : List String
  deriving DecidableEq, Repr

/-- Modelled from the spec: path translation of the collaborator; the local
form of a path is taken to be the path itself. -/
def FileSystemAccess.path2local (_fs : FileSystemAccess) (path : String) : String :=
  path

/-- Modelled from the spec: deletion of a local path by the collaborator. -/
def FileSystemAccess.unlinklocal (fs : FileSystemAccess) (localpath : String) : FileSystemAccess :=
  { fs with unlinked := localpath :: fs.unlinked }

/-! ## `SqliteDbTable` -/

/-- The table handle.  `db` says whether the member `db` is non-NULL, and
`engine` is the connection it points to; `pStmt` is the cursor member. -/
structure SqliteDbTable where
  db : Bool
  pStmt : Option Nat
  fsaccess : FileSystemAccess
  dbfile : String
  engine : sqlite3
  deriving DecidableEq, Repr

/-- Constructor `SqliteDbTable::SqliteDbTable`. -/
def SqliteDbTable.new (cdb : sqlite3) (fs : FileSystemAccess) (filepath : String) :
    SqliteDbTable :=
  { db := true, pStmt := none, fsaccess := fs, dbfile := filepath, engine := cdb }

/-! ## `SqliteDbAccess` -/

/-- The factory; `dbpath` is the base directory. -/
structure SqliteDbAccess where
  dbpath : String
  deriving DecidableEq, Repr

/-- Constructor `SqliteDbAccess::SqliteDbAccess(string* path)`. -/
def SqliteDbAccess.new (path : Option String) : SqliteDbAccess :=
  match path with
  | some p => { dbpath := p }
  | none => { dbpath := "" }

/-- The local `dbdir` of `SqliteDbAccess::open`. -/
def SqliteDbAccess.dbdir (acc : SqliteDbAccess) (name : String) : String :=
  acc.dbpath ++ "megaclient_statecache7_" ++ name ++ ".db"

/-- Method `SqliteDbAccess::open`.  `stored` is what the engine finds at the
location: `none` when it cannot be opened, the persisted tables otherwise
(`Tables.empty` for a location that did not exist). -/
def SqliteDbAccess.open (acc : SqliteDbAccess) (fsaccess : FileSystemAccess) (name : String)
    (stored : Option Tables) : Option SqliteDbTable :=
  let o := sqlite3_open (c_str (acc.dbdir name)) stored
  if o.1 ≠ 0 then none else
  match o.2 with
  | none => none
  | some db =>
    let db := (sqlite3_exec db "PRAGMA journal_mode=WAL;").2
    let r1 := sqlite3_exec db "CREATE TABLE IF NOT EXISTS init (id INTEGER PRIMARY KEY NOT NULL, content BLOB NOT NULL)"
    if r1.1 ≠ 0 then none else
    let r2 := sqlite3_exec r1.2 "CREATE TABLE IF NOT EXISTS nodes (nodehandle BLOB PRIMARY KEY NOT NULL, parenthandle BLOB NOT NULL, fingerprint BLOB, node BLOB NOT NULL)"
    if r2.1 ≠ 0 then none else
    let r3 := sqlite3_exec r2.2 "CREATE TABLE IF NOT EXISTS users (email BLOB PRIMARY KEY NOT NULL, user BLOB NOT NULL)"
    if r3.1 ≠ 0 then none else
    let r4 := sqlite3_exec r3.2 "CREATE TABLE IF NOT EXISTS pcrs (id BLOB PRIMARY KEY NOT NULL, pcr BLOB NOT NULL)"
    if r4.1 ≠ 0 then none else
    some (SqliteDbTable.new r4.2 fsaccess (acc.dbdir name))

namespace SqliteDbTable

/-- Method `SqliteDbTable::getscsn`. -/
def getscsn (t : SqliteDbTable) : Option String × SqliteDbTable :=
  if !t.db then (none, t) else
  let p := sqlite3_prepare t.engine "SELECT content FROM init WHERE id = ?"
  if p.1 ≠ 0 then (none, { t with engine := p.2.2 }) else
  let b := sqlite3_bind_int p.2.2 p.2.1 1 0
  if b.1 ≠ 0 then (none, { t with engine := b.2 }) else
  let s := sqlite3_step b.2 p.2.1
  if s.1 ≠ SQLITE_ROW then (none, { t with engine := s.2 }) else
  let data := sqlite3_column_blob s.2 p.2.1
  (some data, { t with engine := sqlite3_finalize s.2 p.2.1 })

/-- Method `SqliteDbTable::getrootnode`. -/
def getrootnode (t : SqliteDbTable) (index : Int) : Option String × SqliteDbTable :=
  if !t.db then (none, t) else
  let p := sqlite3_prepare t.engine "SELECT content FROM init WHERE id = ?"
  if p.1 ≠ 0 then (none, { t with engine := p.2.2 }) else
  let b := sqlite3_bind_int p.2.2 p.2.1 1 index
  if b.1 ≠ 0 then (none, { t with engine := b.2 }) else
  let s := sqlite3_step b.2 p.2.1
  if s.1 ≠ SQLITE_ROW then (none, { t with engine := s.2 }) else
  let data := sqlite3_column_blob s.2 p.2.1
  (some data, { t with engine := sqlite3_finalize s.2 p.2.1 })

/-- Method `SqliteDbTable::getnodebyhandle`. -/
def getnodebyhandle (t : SqliteDbTable) (h : String) : Option String × SqliteDbTable :=
  if !t.db then (none, t) else
  let p := sqlite3_prepare t.engine "SELECT node FROM nodes WHERE nodehandle = ?"
  if p.1 ≠ 0 then (none, { t with engine := p.2.2 }) else
  let b := sqlite3_bind_blob p.2.2 p.2.1 1 h
  if b.1 ≠ 0 then (none, { t with engine := b.2 }) else
  let s := sqlite3_step b.2 p.2.1
  if s.1 ≠ SQLITE_ROW then (none, { t with engine := s.2 }) else
  let data := sqlite3_column_blob s.2 p.2.1
  (some data, { t with engine := sqlite3_finalize s.2 p.2.1 })

/-- Method `SqliteDbTable::getnodebyfingerprint`. -/
def getnodebyfingerprint (t : SqliteDbTable) (fp : String) : Option String × SqliteDbTable :=
  if !t.db then (none, t) else
  let p := sqlite3_prepare t.engine "SELECT node FROM nodes WHERE fingerprint = ?"
  if p.1 ≠ 0 then (none, { t with engine := p.2.2 }) else
  let b := sqlite3_bind_blob p.2.2 p.2.1 1 fp
  if b.1 ≠ 0 then (none, { t with engine := b.2 }) else
  let s := sqlite3_step b.2 p.2.1
  if s.1 ≠ SQLITE_ROW then (none, { t with engine := s.2 }) else
  let data := sqlite3_column_blob s.2 p.2.1
  (some data, { t with engine := sqlite3_finalize s.2 p.2.1 })

/-- Method `SqliteDbTable::rewinduser`.  The result of `sqlite3_prepare` is
ignored; the call stores the new statement, or NULL on error, in `pStmt`. -/
def rewinduser (t : SqliteDbTable) : SqliteDbTable :=
  if !t.db then t else
  let e := if t.pStmt.isSome then sqlite3_reset t.engine t.pStmt else t.engine
  let p := sqlite3_prepare e "SELECT user FROM users"
  { t with pStmt := p.2.1, engine := p.2.2 }

/-- Method `SqliteDbTable::rewindchildren`. -/
def rewindchildren (t : SqliteDbTable) (ph : String) : SqliteDbTable :=
  if !t.db then t else
  let e := if t.pStmt.isSome then sqlite3_reset t.engine t.pStmt else t.engine
  let p := sqlite3_prepare e "SELECT node FROM nodes WHERE parenthandle = ?"
  if p.1 ≠ 0 then { t with pStmt := p.2.1, engine := p.2.2 } else
  let b := sqlite3_bind_blob p.2.2 p.2.1 1 ph
  if b.1 ≠ 0 then { t with pStmt := p.2.1, engine := b.2 } else
  { t with pStmt := p.2.1, engine := b.2 }

/-- Method `SqliteDbTable::rewindpcr`. -/
def rewindpcr (t : SqliteDbTable) : SqliteDbTable :=
  if !t.db then t else
  let e := if t.pStmt.isSome then sqlite3_reset t.engine t.pStmt else t.engine
  let p := sqlite3_prepare e "SELECT pcr FROM pcrs"
  { t with pStmt := p.2.1, engine := p.2.2 }

/-- Method `SqliteDbTable::next`. -/
def next (t : SqliteDbTable) : Option String × SqliteDbTable :=
  if !t.db then (none, t) else
  if t.pStmt.isNone then (none, t) else
  let s := sqlite3_step t.engine t.pStmt
  if s.1 ≠ SQLITE_ROW then
    (none, { t with engine := sqlite3_finalize s.2 t.pStmt, pStmt := none })
  else
    (some (sqlite3_column_blob s.2 t.pStmt), { t with engine := s.2 })

/-- Method `SqliteDbTable::putscsn`; `data` stands for the `len` bytes at the
non-null pointer `data`. -/
def putscsn (t : SqliteDbTable) (data : String) : Bool × SqliteDbTable :=
  if !t.db then (false, t) else
  let p := sqlite3_prepare t.engine "INSERT OR REPLACE INTO init (id, content) VALUES (?, ?)"
  if p.1 ≠ 0 then (false, { t with engine := p.2.2 }) else
  let b1 := sqlite3_bind_int p.2.2 p.2.1 1 0
  if b1.1 ≠ 0 then (false, { t with engine := b1.2 }) else
  let b2 := sqlite3_bind_blob b1.2 p.2.1 2 data
  if b2.1 ≠ 0 then (false, { t with engine := b2.2 }) else
  let s := sqlite3_step b2.2 p.2.1
  if s.1 ≠ SQLITE_DONE then (false, { t with engine := s.2 }) else
  (true, { t with engine := sqlite3_finalize s.2 p.2.1 })

/-- Method `SqliteDbTable::putrootnode`. -/
def putrootnode (t : SqliteDbTable) (index : Int) (data : String) : Bool × SqliteDbTable :=
  if !t.db then (false, t) else
  let p := sqlite3_prepare t.engine "INSERT OR REPLACE INTO init (id, content) VALUES (?, ?)"
  if p.1 ≠ 0 then (false, { t with engine := p.2.2 }) else
  let b1 := sqlite3_bind_int p.2.2 p.2.1 1 index
  if b1.1 ≠ 0 then (false, { t with engine := b1.2 }) else
  let b2 := sqlite3_bind_blob b1.2 p.2.1 2 data
  if b2.1 ≠ 0 then (false, { t with engine := b2.2 }) else
  let s := sqlite3_step b2.2 p.2.1
  if s.1 ≠ SQLITE_DONE then (false, { t with engine := s.2 }) else
  (true, { t with engine := sqlite3_finalize s.2 p.2.1 })

/-- Method `SqliteDbTable::putnode`.  Parameter 3 is bound only when
`fp->size()` is nonzero; otherwise `rc` keeps the value of the previous call and
the parameter keeps the NULL that `sqlite3_prepare` gives every parameter. -/
def putnode (t : SqliteDbTable) (h ph fp node : String) : Bool × SqliteDbTable :=
  if !t.db then (false, t) else
  let p := sqlite3_prepare t.engine "INSERT OR REPLACE INTO nodes (nodehandle, parenthandle, fingerprint, node) VALUES (?, ?, ?, ?)"
  if p.1 ≠ 0 then (false, { t with engine := p.2.2 }) else
  let b1 := sqlite3_bind_blob p.2.2 p.2.1 1 h
  if b1.1 ≠ 0 then (false, { t with engine := b1.2 }) else
  let b2 := sqlite3_bind_blob b1.2 p.2.1 2 ph
  if b2.1 ≠ 0 then (false, { t with engine := b2.2 }) else
  let b3 := if fp.length ≠ 0 then sqlite3_bind_blob b2.2 p.2.1 3 fp else b2
  if b3.1 ≠ 0 then (false, { t with engine := b3.2 }) else
  let b4 := sqlite3_bind_blob b3.2 p.2.1 4 node
  if b4.1 ≠ 0 then (false, { t with engine := b4.2 }) else
  let s := sqlite3_step b4.2 p.2.1
  if s.1 ≠ SQLITE_DONE then (false, { t with engine := s.2 }) else
  (true, { t with engine := sqlite3_finalize s.2 p.2.1 })

/-- Method `SqliteDbTable::putuser`. -/
def putuser (t : SqliteDbTable) (email user : String) : Bool × SqliteDbTable :=
  if !t.db then (false, t) else
  let p := sqlite3_prepare t.engine "INSERT OR REPLACE INTO users (email, user) VALUES (?, ?)"
  if p.1 ≠ 0 then (false, { t with engine := p.2.2 }) else
  let b1 := sqlite3_bind_blob p.2.2 p.2.1 1 email
  if b1.1 ≠ 0 then (false, { t with engine := b1.2 }) else
  let b2 := sqlite3_bind_blob b1.2 p.2.1 2 user
  if b2.1 ≠ 0 then (false, { t with engine := b2.2 }) else
  let s := sqlite3_step b2.2 p.2.1
  if s.1 ≠ SQLITE_DONE then (false, { t with engine := s.2 }) else
  (true, { t with engine := sqlite3_finalize s.2 p.2.1 })

/-- Method `SqliteDbTable::putpcr`. -/
def putpcr (t : SqliteDbTable) (id pcr : String) : Bool × SqliteDbTable :=
  if !t.db then (false, t) else
  let p := sqlite3_prepare t.engine "INSERT OR REPLACE INTO pcrs (id, pcr) VALUES (?, ?)"
  if p.1 ≠ 0 then (false, { t with engine := p.2.2 }) else
  let b1 := sqlite3_bind_blob p.2.2 p.2.1 1 id
  if b1.1 ≠ 0 then (false, { t with engine := b1.2 }) else
  let b2 := sqlite3_bind_blob b1.2 p.2.1 2 pcr
  if b2.1 ≠ 0 then (false, { t with engine := b2.2 }) else
  let s := sqlite3_step b2.2 p.2.1
  if s.1 ≠ SQLITE_DONE then (false, { t with engine := s.2 }) else
  (true, { t with engine := sqlite3_finalize s.2 p.2.1 })

/-- Method `SqliteDbTable::delnode`. -/
def delnode (t : SqliteDbTable) (h : String) : Bool × SqliteDbTable :=
  if !t.db then (false, t) else
  let p := sqlite3_prepare t.engine "DELETE FROM nodes WHERE nodehandle = ?"
  if p.1 ≠ 0 then (false, { t with engine := p.2.2 }) else
  let b1 := sqlite3_bind_blob p.2.2 p.2.1 1 h
  if b1.1 ≠ 0 then (false, { t with engine := b1.2 }) else
  let s := sqlite3_step b1.2 p.2.1
  if s.1 ≠ SQLITE_DONE then (false, { t with engine := s.2 }) else
  (true, { t with engine := sqlite3_finalize s.2 p.2.1 })

/-- Method `SqliteDbTable::delpcr`. -/
def delpcr (t : SqliteDbTable) (id : String) : Bool × SqliteDbTable :=
  if !t.db then (false, t) else
  let p := sqlite3_prepare t.engine "DELETE FROM pcrs WHERE id = ?"
  if p.1 ≠ 0 then (false, { t with engine := p.2.2 }) else
  let b1 := sqlite3_bind_blob p.2.2 p.2.1 1 id
  if b1.1 ≠ 0 then (false, { t with engine := b1.2 }) else
  let s := sqlite3_step b1.2 p.2.1
  if s.1 ≠ SQLITE_DONE then (false, { t with engine := s.2 }) else
  (true, { t with engine := sqlite3_finalize s.2 p.2.1 })

/-- Method `SqliteDbTable::truncate`; the results of `sqlite3_exec` are ignored. -/
def truncate (t : SqliteDbTable) : SqliteDbTable :=
  if !t.db then t else
  let e1 := (sqlite3_exec t.engine "DELETE FROM scsn").2
  let e2 := (sqlite3_exec e1 "DELETE FROM nodes").2
  let e3 := (sqlite3_exec e2 "DELETE FROM users").2
  let e4 := (sqlite3_exec e3 "DELETE FROM pcrs").2
  { t with engine := e4 }

/-- Method `SqliteDbTable::begin`. -/
def begin (t : SqliteDbTable) : SqliteDbTable :=
  if !t.db then t else
  { t with engine := (sqlite3_exec t.engine "BEGIN").2 }

/-- Method `SqliteDbTable::commit`. -/
def commit (t : SqliteDbTable) : SqliteDbTable :=
  if !t.db then t else
  { t with engine := (sqlite3_exec t.engine "COMMIT").2 }

/-- Method `SqliteDbTable::abort`. -/
def abort (t : SqliteDbTable) : SqliteDbTable :=
  if !t.db then t else
  { t with engine := (sqlite3_exec t.engine "ROLLBACK").2 }

/-- Method `SqliteDbTable::remove`.  `pStmt` is finalized but not set to NULL. -/
def remove (t : SqliteDbTable) : SqliteDbTable :=
  if !t.db then t else
  let t1 := if t.pStmt.isSome then { t with engine := sqlite3_finalize t.engine t.pStmt } else t
  let t2 := t1.abort
  let t3 := { t2 with engine := (sqlite3_close t2.engine).2 }
  let t4 := { t3 with db := false }
  let localpath := t4.fsaccess.path2local t4.dbfile
  { t4 with fsaccess := t4.fsaccess.unlinklocal localpath }

/-- Calls of `next()` in a row: the results of `n` calls and the handle afterwards. -/
def nexts : Nat → SqliteDbTable → List (Option String) × SqliteDbTable
  | 0, t => ([], t)
  | n + 1, t => ((t.next.1 :: (nexts n t.next.2).1), (nexts n t.next.2).2)

/-- The rows the bound cursor has yet to return: the rows of the table, as it
is now, that pass the test of the query and lie past the rowid the cursor has
reached. -/
def pendingRows (t : SqliteDbTable) : List String :=
  match t.pStmt with
  | none => []
  | some id =>
      match findStmt t.engine id with
      | none => []
      | some st =>
          if st.sql.isSelect then
            liveRows ((scanSlots t.engine.tabs st.sql st.binds).drop (st.pos.getD 0))
          else []

end SqliteDbTable

/-! ## Sequences of calls on a handle -/

/-- A call of a method of `SqliteDbTable` with its arguments. -/
inductive Op where
  | getscsn
  | getrootnode (index : Int)
  | getnodebyhandle (h : String)
  | getnodebyfingerprint (fp : String)
  | rewinduser
  | rewindchildren (ph : String)
  | rewindpcr
  | next
  | putscsn (data : String)
  | putrootnode (index : Int) (data : String)
  | putnode (h ph fp node : String)
  | putuser (email user : String)
  | putpcr (id pcr : String)
  | delnode (h : String)
  | delpcr (id : String)
  | truncate
  | begin
  | commit
  | abort
  | remove
  deriving DecidableEq, Repr

/-- What a call gives back: the data of a `bool` method with an output
parameter, the `bool` of the others, or nothing for a `void` method. -/
inductive Ret where
  | data (d : Option String)
  | flag (b : Bool)
  | void
  deriving DecidableEq, Repr

/-- One call on the handle. -/
def Op.call (t : SqliteDbTable) : Op → Ret × SqliteDbTable
  | .getscsn => (.data t.getscsn.1, t.getscsn.2)
  | .getrootnode i => (.data (t.getrootnode i).1, (t.getrootnode i).2)
  | .getnodebyhandle h => (.data (t.getnodebyhandle h).1, (t.getnodebyhandle h).2)
  | .getnodebyfingerprint fp => (.data (t.getnodebyfingerprint fp).1, (t.getnodebyfingerprint fp).2)
  | .rewinduser => (.void, t.rewinduser)
  | .rewindchildren ph => (.void, t.rewindchildren ph)
  | .rewindpcr => (.void, t.rewindpcr)
  | .next => (.data t.next.1, t.next.2)
  | .putscsn d => (.flag (t.putscsn d).1, (t.putscsn d).2)
  | .putrootnode i d => (.flag (t.putrootnode i d).1, (t.putrootnode i d).2)
  | .putnode h ph fp n => (.flag (t.putnode h ph fp n).1, (t.putnode h ph fp n).2)
  | .putuser e u => (.flag (t.putuser e u).1, (t.putuser e u).2)
  | .putpcr i p => (.flag (t.putpcr i p).1, (t.putpcr i p).2)
  | .delnode h => (.flag (t.delnode h).1, (t.delnode h).2)
  | .delpcr i => (.flag (t.delpcr i).1, (t.delpcr i).2)
  | .truncate => (.void, t.truncate)
  | .begin => (.void, t.begin)
  | .commit => (.void, t.commit)
  | .abort => (.void, t.abort)
  | .remove => (.void, t.remove)

/-- Whether the call is one of the three rewind methods. -/
def Op.isRewind : Op → Bool
  | .rewinduser => true
  | .rewindchildren _ => true
  | .rewindpcr => true
  | _ => false

/-- The answer every call gives on a closed handle. -/
def Op.closedRet : Op → Ret
  | .getscsn => .data none
  | .getrootnode _ => .data none
  | .getnodebyhandle _ => .data none
  | .getnodebyfingerprint _ => .data none
  | .next => .data none
  | .putscsn _ => .flag false
  | .putrootnode _ _ => .flag false
  | .putnode _ _ _ _ => .flag false
  | .putuser _ _ => .flag false
  | .putpcr _ _ => .flag false
  | .delnode _ => .flag false
  | .delpcr _ => .flag false
  | _ => .void

/-- A sequence of calls, in order: the answers and the handle afterwards. -/
def runOps : List Op → SqliteDbTable → List Ret × SqliteDbTable
  | [], t => ([], t)
  | op :: ops, t => ((op.call t).1 :: (runOps ops (op.call t).2).1, (runOps ops (op.call t).2).2)

/-! ## Sample handles -/

/-- A handle just opened on a location that did not exist. -/
def freshTable : SqliteDbTable :=
  SqliteDbTable.new ⟨"megaclient_statecache7_acct.db", Tables.empty, none, [], false⟩ ⟨[]⟩
    "megaclient_statecache7_acct.db"

/-- A handle with rows in all four tables, filled through the handle itself. -/
def sampleTable : SqliteDbTable :=
  (((((((freshTable.putscsn "x").2.putrootnode 1 "r1").2.putnode "N1" "ROOT" "" "folderdata").2.putnode
    "N2" "ROOT" "fp2" "filedata").2.putnode "N3" "N1" "" "sub").2.putuser "a@x.com" "U1").2.putpcr
    "p1" "PCR1").2




open SqliteDbTable

/-! ## Facts about slots and scans -/

theorem liveRows_nil {α : Type} : liveRows ([] : List (Option α)) = [] := rfl

theorem liveRows_cons_some {α : Type} (a : α) (l : List (Option α)) :
    liveRows (some a :: l) = a :: liveRows l := rfl

theorem seek_of_liveRows_nil (l : List (Option String)) (k : Nat) (h : liveRows l = []) :
    seek l k = none := by
  induction l generalizing k with
  | nil => rfl
  | cons s l ih =>
    cases s with
    | none => exact ih (k + 1) h
    | some a => simp [liveRows_cons_some] at h

theorem seek_of_liveRows_cons (l : List (Option String)) (k : Nat) (r : String)
    (rest : List String) (h : liveRows l = r :: rest) :
    ∃ j, seek l k = some (r, k + j + 1) ∧ liveRows (l.drop (j + 1)) = rest := by
  induction l generalizing k with
  | nil => simp [liveRows_nil] at h
  | cons s l ih =>
    cases s with
    | none =>
      obtain ⟨j, hj, hd⟩ := ih (k + 1) h
      refine ⟨j + 1, ?_, ?_⟩
      · simp only [seek, hj]
        congr 2
        omega
      · simpa using hd
    | some a =>
      rw [liveRows_cons_some] at h
      injection h with h1 h2
      subst h1
      exact ⟨0, by simp [seek], by simpa using h2⟩

theorem lookup_map_set (id id' : Nat) (st : Stmt) (l : List (Nat × Stmt)) :
    List.lookup id' (l.map (fun p => if p.1 = id then (p.1, st) else p)) =
      if id' = id then (List.lookup id' l).map (fun _ => st) else List.lookup id' l := by
  induction l with
  | nil => simp
  | cons p l ih =>
    obtain ⟨k, v⟩ := p
    by_cases hk : k = id
    · by_cases h' : id' = id
      · subst hk; subst h'; simp [List.lookup_cons]
      · subst hk
        have : (id' == k) = false := by simpa using h'
        simp [List.lookup_cons, this, ih, h']
    · by_cases h' : id' = k
      · subst h'; simp [List.lookup_cons, hk]
      · have : (id' == k) = false := by simpa using h'
        simp [List.lookup_cons, this, ih, hk]

theorem findStmt_setStmt_self (db : sqlite3) (id : Nat) (st st' : Stmt)
    (h : findStmt db id = some st) : findStmt (setStmt db id st') id = some st' := by
  unfold findStmt at h
  simp [findStmt, setStmt, lookup_map_set, h]

theorem run_rc (db : sqlite3) (q : Sql) (binds : List Value) :
    (run db q binds).1 = SQLITE_OK ∨ (run db q binds).1 = SQLITE_ERROR ∨
      (run db q binds).1 = SQLITE_CONSTRAINT := by
  unfold run
  split <;> split <;> simp

/-! ## The cursor -/

theorem next_row (t : SqliteDbTable) (hdb : t.db = true) (r : String) (rest : List String)
    (h : t.pendingRows = r :: rest) :
    t.next.1 = some r ∧ t.next.2.pStmt = t.pStmt ∧ t.next.2.db = true ∧
      t.next.2.pendingRows = rest ∧ t.next.2.engine.tabs = t.engine.tabs := by
  unfold pendingRows at h
  cases hp : t.pStmt with
  | none => simp [hp] at h
  | some id =>
    rw [hp] at h
    cases hf : findStmt t.engine id with
    | none => simp [hf] at h
    | some st =>
      simp only [hf] at h
      by_cases hs : st.sql.isSelect = true
      · simp only [hs, if_true] at h
        obtain ⟨j, hj, hd⟩ := seek_of_liveRows_cons _ (st.pos.getD 0) r rest h
        have hf' := findStmt_setStmt_self t.engine id st
          { st with pos := some (st.pos.getD 0 + j + 1), current := some r } hf
        have hd' : liveRows (List.drop (st.pos.getD 0 + j + 1)
            (scanSlots t.engine.tabs st.sql st.binds)) = rest := by
          rw [List.drop_drop] at hd
          exact hd
        have htabs : (setStmt t.engine id
            { st with pos := some (st.pos.getD 0 + j + 1), current := some r }).tabs =
              t.engine.tabs := rfl
        simp [next, hdb, hp, sqlite3_step, hf, hs, hj, sqlite3_column_blob, hf', pendingRows,
          htabs, hd']
      · simp [hs] at h

theorem next_done (t : SqliteDbTable) (hdb : t.db = true) (h : t.pendingRows = []) :
    t.next.1 = none ∧ t.next.2.pStmt = none ∧ t.next.2.db = true := by
  unfold pendingRows at h
  cases hp : t.pStmt with
  | none => simp [next, hdb, hp]
  | some id =>
    rw [hp] at h
    cases hf : findStmt t.engine id with
    | none => simp [next, hdb, hp, sqlite3_step, hf]
    | some st =>
      simp only [hf] at h
      by_cases hs : st.sql.isSelect = true
      · simp only [hs, if_true] at h
        have hk := seek_of_liveRows_nil _ (st.pos.getD 0) h
        simp [next, hdb, hp, sqlite3_step, hf, hs, hk]
      · have hrc := run_rc t.engine st.sql st.binds
        have hne : (run t.engine st.sql st.binds).1 ≠ SQLITE_ROW := by
          rcases hrc with h0 | h0 | h0 <;> simp [h0]
        simp [next, hdb, hp, sqlite3_step, hf, hs]
        split <;> simp_all

theorem next_unbound (t : SqliteDbTable) (h : t.pStmt = none) : t.next = (none, t) := by
  unfold next
  by_cases hdb : t.db = true <;> simp [hdb, h]

theorem nexts_unbound (n : Nat) (t : SqliteDbTable) (h : t.pStmt = none) :
    t.nexts n = (List.replicate n none, t) := by
  induction n with
  | zero => rfl
  | succ n ih => simp [nexts, next_unbound t h, ih, List.replicate_succ]

theorem call_closed (t : SqliteDbTable) (h : t.db = false) (op : Op) :
    op.call t = (op.closedRet, t) := by
  cases op <;>
    simp [Op.call, Op.closedRet, getscsn, getrootnode, getnodebyhandle, getnodebyfingerprint,
      rewinduser, rewindchildren, rewindpcr, next, putscsn, putrootnode, putnode, putuser, putpcr,
      delnode, delpcr, truncate, begin, commit, abort, remove, h]

theorem runOps_closed (ops : List Op) (t : SqliteDbTable) (h : t.db = false) :
    runOps ops t = (ops.map Op.closedRet, t) := by
  induction ops with
  | nil => rfl
  | cons op ops ih => simp [runOps, call_closed t h, ih]

theorem remove_db (t : SqliteDbTable) : t.remove.db = false := by
  unfold remove
  by_cases h : t.db = true
  · simp [h]
  · have h' : t.db = false := by simpa using h
    simp [h']

theorem string_append_right_cancel (a b c : String) (h : a ++ b = a ++ c) : b = c := by
  have := congrArg String.data h
  simp only [String.data_append] at this
  exact String.ext (List.append_cancel_left this)

theorem string_append_left_cancel (a b c : String) (h : a ++ c = b ++ c) : a = b := by
  have := congrArg String.data h
  simp only [String.data_append] at this
  exact String.ext (List.append_cancel_right this)

theorem dbdir_injective (acc : SqliteDbAccess) (n1 n2 : String)
    (h : acc.dbdir n1 = acc.dbdir n2) : n1 = n2 := by
  unfold SqliteDbAccess.dbdir at h
  have h1 := string_append_left_cancel _ _ _ h
  exact string_append_right_cancel _ _ _ h1



theorem c_str_of_nulFree (s : String) (h : NulFree s = true) : c_str s = s := by
  unfold NulFree at h
  rw [List.all_eq_true] at h
  have : s.data.takeWhile (fun c => decide (c ≠ Char.ofNat 0)) = s.data :=
    List.takeWhile_eq_self_iff.mpr h
  exact String.ext this

theorem nulFree_append (a b : String) (ha : NulFree a = true) (hb : NulFree b = true) :
    NulFree (a ++ b) = true := by
  unfold NulFree at *
  simp only [String.data_append, List.all_append, ha, hb, Bool.and_self]

theorem nulFree_dbdir (acc : SqliteDbAccess) (name : String) (hb : NulFree acc.dbpath = true)
    (hn : NulFree name = true) : NulFree (acc.dbdir name) = true := by
  unfold SqliteDbAccess.dbdir
  exact nulFree_append _ _ (nulFree_append _ _ (nulFree_append _ _ hb (by decide)) hn) (by decide)

theorem open_stored (acc : SqliteDbAccess) (fs : FileSystemAccess) (name : String)
    (tabs : Tables) :
    acc.open fs name (some tabs) =
      some (SqliteDbTable.new ⟨c_str (acc.dbdir name), tabs, none, [], false⟩ fs
        (acc.dbdir name)) := by
  simp [SqliteDbAccess.open, sqlite3_open, sqlite3_exec, compile, Sql.resolves, tableNames, run,
    execWrite]

theorem open_uses_dbdir (acc : SqliteDbAccess) (fs : FileSystemAccess) (name : String)
    (stored : Option Tables) (t : SqliteDbTable) (h : acc.open fs name stored = some t) :
    t.dbfile = acc.dbdir name ∧ t.engine.filename = c_str (acc.dbdir name) ∧ t.db = true := by
  cases stored with
  | none => simp [SqliteDbAccess.open, sqlite3_open] at h
  | some tabs =>
    rw [open_stored] at h
    injection h with h
    subst h
    simp [SqliteDbTable.new]

/-! ## Point operations on an open handle -/

theorem next_false_finalizes (t : SqliteDbTable) (hdb : t.db = true) (id : Nat)
    (hp : t.pStmt = some id) (h : t.next.1 = none) : findStmt t.next.2.engine id = none := by
  unfold next at h ⊢
  simp only [hdb, hp, Bool.not_true, Bool.false_eq_true, if_false, Option.isNone_some] at h ⊢
  split
  · simp only [findStmt, sqlite3_finalize, List.lookup_eq_none_iff]
    intro p hmem
    have hne : p.1 ≠ id := of_decide_eq_true (List.mem_filter.mp hmem).2
    exact bne_iff_ne.mpr (fun e => hne e.symm)
  · rename_i hrow
    simp [hrow] at h

theorem call_keeps_pStmt (t : SqliteDbTable) (op : Op) (hop : op.isRewind = false)
    (hu : t.pStmt = none) : (op.call t).2.pStmt = none := by
  cases op <;> simp [Op.isRewind] at hop <;>
    simp only [Op.call, getscsn, getrootnode, getnodebyhandle, getnodebyfingerprint, next,
      putscsn, putrootnode, putnode, putuser, putpcr, delnode, delpcr, truncate, begin, commit,
      abort, remove] <;>
    (repeat' split) <;> simp [hu, abort]

theorem runOps_keeps_unbound (ops : List Op) :
    ∀ t : SqliteDbTable, t.pStmt = none → (∀ op ∈ ops, op.isRewind = false) →
      (runOps ops t).2.pStmt = none := by
  induction ops with
  | nil => intro t hu _; exact hu
  | cons op ops ih =>
    intro t hu hops
    have h1 := call_keeps_pStmt t op (hops op (List.mem_cons_self _ _)) hu
    exact ih (op.call t).2 h1 (fun o ho => hops o (List.mem_cons_of_mem _ ho))

/-- C1 (evaluation of the code): `truncate()` runs `DELETE FROM scsn`, a table
the schema does not have, so the rows of `init` stay: on the sample handle
`getscsn` still returns the stored value after `truncate()`, while `nodes`,
`users` and `pcrs` are emptied. -/
theorem truncate_keeps_init :
    sampleTable.truncate.getscsn.1 = some "x" ∧
    (sampleTable.truncate.getrootnode 1).1 = some "r1" ∧
    sampleTable.truncate.engine.tabs = ⟨[⟨0, "x"⟩, ⟨1, "r1"⟩], [], [], []⟩ := by
  decide

/-- C5: after `remove()` the handle is closed, and every sequence of calls
made afterwards gives `false` for each `get*`, `put*`, `del*` and `next()` and
leaves the whole state (handle fields, engine, cursor, filesystem record) as
`remove()` left it; in particular the handle stays closed. -/
theorem remove_closes_for_good (t : SqliteDbTable) (ops : List Op) :
    t.remove.db = false ∧
    runOps ops t.remove = (ops.map Op.closedRet, t.remove) :=
  ⟨remove_db t, runOps_closed ops t.remove (remove_db t)⟩

/-- C7 (counterexample): the names `x\0a` and `x\0b` differ, yet `open` hands
the engine the same location for both, because `c_str()` ends at the first
NUL byte: the location is not the whole concatenation and is not injective
in the name. -/
theorem open_nul_names_collide :
    ("x\x00a" : String) ≠ "x\x00b" ∧
    ((SqliteDbAccess.new (some "/tmp/")).open ⟨[]⟩ "x\x00a" (some Tables.empty)).map
        (fun t => t.engine.filename) = some "/tmp/megaclient_statecache7_x" ∧
    ((SqliteDbAccess.new (some "/tmp/")).open ⟨[]⟩ "x\x00b" (some Tables.empty)).map
        (fun t => t.engine.filename) = some "/tmp/megaclient_statecache7_x" ∧
    (SqliteDbAccess.new (some "/tmp/")).dbdir "x\x00a" ≠ "/tmp/megaclient_statecache7_x" := by
  decide

/-- C7 (amended): for a base directory and names that hold no NUL byte, the
location `open(name)` hands to the engine and keeps in the handle is
`dbpath + "megaclient_statecache7_" + name + ".db"`; `open` succeeds on every
location the engine can open, whatever the filesystem collaborator and the
stored content are; and two different names give two different locations. -/
theorem open_location_injective (acc : SqliteDbAccess) (n1 n2 : String)
    (hb : NulFree acc.dbpath = true) (h1 : NulFree n1 = true) (h2 : NulFree n2 = true)
    (hne : n1 ≠ n2) :
    c_str (acc.dbdir n1) = acc.dbpath ++ "megaclient_statecache7_" ++ n1 ++ ".db" ∧
    (∀ (fs : FileSystemAccess) (tabs : Tables), ∃ t : SqliteDbTable,
      acc.open fs n1 (some tabs) = some t ∧
        t.engine.filename = acc.dbpath ++ "megaclient_statecache7_" ++ n1 ++ ".db" ∧
        t.dbfile = acc.dbpath ++ "megaclient_statecache7_" ++ n1 ++ ".db") ∧
    (∀ (fs : FileSystemAccess) (stored : Option Tables) (t : SqliteDbTable),
      acc.open fs n1 stored = some t →
        t.engine.filename = acc.dbpath ++ "megaclient_statecache7_" ++ n1 ++ ".db" ∧
        t.dbfile = acc.dbpath ++ "megaclient_statecache7_" ++ n1 ++ ".db") ∧
    c_str (acc.dbdir n1) ≠ c_str (acc.dbdir n2) := by
  have hc1 : c_str (acc.dbdir n1) = acc.dbdir n1 :=
    c_str_of_nulFree _ (nulFree_dbdir acc n1 hb h1)
  have hc2 : c_str (acc.dbdir n2) = acc.dbdir n2 :=
    c_str_of_nulFree _ (nulFree_dbdir acc n2 hb h2)
  refine ⟨hc1, ?_, ?_, ?_⟩
  · intro fs tabs
    exact ⟨_, open_stored acc fs n1 tabs, hc1, rfl⟩
  · intro fs stored t h
    have hu := open_uses_dbdir acc fs n1 stored t h
    exact ⟨hu.2.1.trans hc1, hu.1⟩
  · rw [hc1, hc2]
    intro h
    exact hne (dbdir_injective acc n1 n2 h)

/-- Instance of C7 (amended) for base directory `/tmp/` and the names `alice`
and `bob`: `open` on a new location returns a handle on
`/tmp/megaclient_statecache7_alice.db`, and the two locations differ. -/
theorem open_location_injective_witness :
    (∃ t : SqliteDbTable,
      (SqliteDbAccess.new (some "/tmp/")).open ⟨[]⟩ "alice" (some Tables.empty) = some t ∧
        t.engine.filename = "/tmp/" ++ "megaclient_statecache7_" ++ "alice" ++ ".db" ∧
        t.dbfile = "/tmp/" ++ "megaclient_statecache7_" ++ "alice" ++ ".db") ∧
    c_str ((SqliteDbAccess.new (some "/tmp/")).dbdir "alice") ≠
      c_str ((SqliteDbAccess.new (some "/tmp/")).dbdir "bob") :=
  ⟨(open_location_injective (SqliteDbAccess.new (some "/tmp/")) "alice" "bob" (by decide)
      (by decide) (by decide) (by decide)).2.1 ⟨[]⟩ Tables.empty,
   (open_location_injective (SqliteDbAccess.new (some "/tmp/")) "alice" "bob" (by decide)
      (by decide) (by decide) (by decide)).2.2.2⟩

/-- C8: on an open handle, `next()` with no cursor bound returns `false` and
changes nothing; with a cursor that has a further row it returns that row,
keeps the cursor bound and leaves the remaining rows pending; with a cursor
that has no further row it returns `false`, releases the statement and unbinds
the cursor, after which every further `next()` returns `false`, both in a run
of `next()` calls and after any sequence of calls that contains no rewind. -/
theorem next_contract (t : SqliteDbTable) (hdb : t.db = true) :
    (t.pStmt = none → t.next = (none, t)) ∧
    (∀ (r : String) (rest : List String), t.pStmt ≠ none → t.pendingRows = r :: rest →
      t.next.1 = some r ∧ t.next.2.pStmt = t.pStmt ∧ t.next.2.pendingRows = rest) ∧
    (t.pStmt ≠ none → t.pendingRows = [] →
      t.next.1 = none ∧ t.next.2.pStmt = none ∧
        (∀ n : Nat, (t.next.2.nexts n).1 = List.replicate n none) ∧
        (∀ ops : List Op, (∀ op ∈ ops, op.isRewind = false) →
          (runOps ops t.next.2).2.pStmt = none ∧ (runOps ops t.next.2).2.next.1 = none) ∧
        (∀ id : Nat, t.pStmt = some id → findStmt t.next.2.engine id = none)) := by
  refine ⟨next_unbound t, ?_, ?_⟩
  · intro r rest _ h
    have hr := next_row t hdb r rest h
    exact ⟨hr.1, hr.2.1, hr.2.2.2.1⟩
  · intro _ h
    have hd := next_done t hdb h
    refine ⟨hd.1, hd.2.1, ?_, ?_, ?_⟩
    · intro n
      rw [nexts_unbound n _ hd.2.1]
    · intro ops hops
      have hu := runOps_keeps_unbound ops t.next.2 hd.2.1 hops
      exact ⟨hu, by rw [next_unbound _ hu]⟩
    · intro id hp
      exact next_false_finalizes t hdb id hp hd.1

/-- Instance of C8: no cursor; a cursor over one user row; a cursor over an
empty table; and a cursor that has returned the only user row and then, after
`putuser` stores a second row, has that row as its further row. -/
theorem next_contract_witness :
    freshTable.next = (none, freshTable) ∧
    sampleTable.rewinduser.next.1 = some "U1" ∧
    freshTable.rewinduser.next.1 = none ∧ freshTable.rewinduser.next.2.pStmt = none ∧
    (sampleTable.rewinduser.next.2.putuser "b@x.com" "U3").2.next.1 = some "U3" :=
  ⟨(next_contract freshTable rfl).1 rfl,
   ((next_contract sampleTable.rewinduser (by decide)).2.1 "U1" [] (by decide) (by decide)).1,
   ((next_contract freshTable.rewinduser (by decide)).2.2 (by decide) (by decide)).1,
   ((next_contract freshTable.rewinduser (by decide)).2.2 (by decide) (by decide)).2.1,
   ((next_contract (sampleTable.rewinduser.next.2.putuser "b@x.com" "U3").2 (by decide)).2.1
      "U3" [] (by decide) (by decide)).1⟩

/-- C9 (evaluation of the code): the rewind methods call `sqlite3_reset` on
the old cursor, which leaves it live, and then overwrite `pStmt`: after two
calls of `rewinduser()` on a fresh handle two scan statements are live and
`pStmt` refers to the second only. -/
theorem rewind_leaves_old_cursor_live :
    freshTable.rewinduser.rewinduser.pStmt = some 2 ∧
    freshTable.rewinduser.rewinduser.engine.stmts =
      [(2, ⟨.selectUsers, [], none, none⟩), (1, ⟨.selectUsers, [], none, none⟩)] ∧
    (freshTable.rewinduser.rewindchildren "ROOT").engine.stmts =
      [(2, ⟨.selectChildren, [.blob "ROOT"], none, none⟩), (1, ⟨.selectUsers, [], none, none⟩)] ∧
    freshTable.rewinduser.rewindpcr.engine.stmts =
      [(2, ⟨.selectPcrs, [], none, none⟩), (1, ⟨.selectUsers, [], none, none⟩)] := by
  decide

/-- C10 (evaluation of the code): on the not-found path `getscsn` returns
before `sqlite3_finalize`: on a fresh handle, which has no live statement, it
returns `false` and leaves the statement it prepared live; the same holds for
`getnodebyhandle`. -/
theorem lookup_not_found_leaves_statement :
    freshTable.engine.stmts = [] ∧
    freshTable.getscsn.1 = none ∧
    freshTable.getscsn.2.engine.stmts = [(1, ⟨.selectInit, [.integer 0], none, none⟩)] ∧
    (freshTable.getnodebyhandle "N1").1 = none ∧
    (freshTable.getnodebyhandle "N1").2.engine.stmts =
      [(1, ⟨.selectNodeByHandle, [.blob "N1"], none, none⟩)] := by
  decide

end mega
